import Mathlib

/-!
Verification development for the Kubernetes-Dashboard repository.

The definitions below are shallow embeddings of the repository's
subprocess-execution utilities (`utils/kubectlUtils.js`), the TTL cache
(`utils/cache.js`), the EKS cluster configuration generator
(`utils/eksConfigGenerator.js`), the `eks-cli-stream` WebSocket
orchestrator (`websocket/kubernetesWsHandlers.js`) and the Grafana
port-forward routes (`routes/kubernetesRoutes.js`).

Machine-level effects are represented by explicit oracles: the behaviour of
an external child process is a value (its interleaved output chunks and its
exit code, or a spawn failure), and each orchestration function is a pure
function from the request payload and the oracle to the list of frames sent
over the socket plus bookkeeping flags.
-/

/-- A server→client frame of the `eks-cli-stream` protocol:
`{type:'log'|'complete'|'error', ...}`. -/
inductive Frame
  | log (data : String)
  | complete (message : String)
  | error (message : String)
  deriving Repr, DecidableEq

/-- True for `log` frames. -/
def Frame.isLog : Frame → Bool
  | .log _ => true
  | _ => false

/-- True for the terminal frames (`complete` or `error`). -/
def Frame.isTerminal : Frame → Bool
  | .log _ => false
  | _ => true

/-- True for `error` frames. -/
def Frame.isError : Frame → Bool
  | .error _ => true
  | _ => false

/-! ## Response cache (`utils/cache.js`) -/

/-- One cache slot: `{ data, timestamp }` as stored by `setCacheData`. -/
structure CacheEntry (V : Type) where
  data : V
  timestamp : Int
  deriving Repr, DecidableEq

/-- `getCachedData(key, ttl, forceRefresh)` from `utils/cache.js`, with the
implicit `Date.now()` made an explicit `now` argument and the module-level
`cache` object an explicit association list. -/
def getCachedData {V : Type} (cache : List (String × CacheEntry V)) (key : String)
    (ttl : Int) (forceRefresh : Bool) (now : Int) : Option V :=
  match cache.lookup key with
  | none => none
  | some entry =>
    if forceRefresh then none
    else if now - entry.timestamp > ttl then none
    else some entry.data

/-- `setCacheData(key, data)` from `utils/cache.js`: unconditionally
overwrite the entry for `key`, stamping the current time. -/
def setCacheData {V : Type} (cache : List (String × CacheEntry V)) (key : String)
    (data : V) (now : Int) : List (String × CacheEntry V) :=
  (key, ⟨data, now⟩) :: cache.filter (fun kv => kv.1 ≠ key)

/-! ## One-shot executor `execPromise` (`utils/kubectlUtils.js`) -/

/-- An event observed on a spawned child process: a stdout chunk, a stderr
chunk, the `close` event with an exit code, or the `error` event. -/
inductive ProcEvent
  | stdoutData (s : String)
  | stderrData (s : String)
  | closed (code : Int)
  | errored (msg : String)
  deriving Repr, DecidableEq

/-- True for the chunk events (`data` on stdout or stderr). -/
def ProcEvent.isData : ProcEvent → Bool
  | .stdoutData _ => true
  | .stderrData _ => true
  | _ => false

/-- JavaScript `String.prototype.trim()`: strip whitespace from both ends
(structural over the character list, so it evaluates definitionally). -/
def jsTrim (s : String) : String :=
  String.mk
    (((s.toList.dropWhile Char.isWhitespace).reverse.dropWhile Char.isWhitespace).reverse)

/-- Result of an `execPromise` call: the promise resolves with stdout or
rejects with an error message. -/
inductive ExecResult
  | ok (out : String)
  | err (msg : String)
  deriving Repr, DecidableEq

/-- The `close` handler of `execPromise`: resolve with trimmed stdout on
exit code 0, otherwise reject with `stderr || stdout || generic`, trimmed. -/
def execPromiseSettle (stdoutBuffer stderrBuffer : String) (code : Int) : ExecResult :=
  if code = 0 then .ok (jsTrim stdoutBuffer)
  else
    let fullError :=
      if stderrBuffer ≠ "" then stderrBuffer
      else if stdoutBuffer ≠ "" then stdoutBuffer
      else "Command exited with code " ++ toString code
    .err (jsTrim fullError)

/-- The event loop of `execPromise`: accumulate chunks into the two buffers
and settle the promise on the first `close` or `error` event (a promise
settles at most once; later events cannot change it). -/
def execPromiseRun (command : String) : List ProcEvent → String → String → Option ExecResult
  | [], _, _ => none
  | .stdoutData d :: rest, so, se => execPromiseRun command rest (so ++ d) se
  | .stderrData d :: rest, so, se => execPromiseRun command rest so (se ++ d)
  | .closed code :: _, so, se => some (execPromiseSettle so se code)
  | .errored m :: _, _, _ =>
    some (.err ("Failed to execute command \"" ++ command ++ "\": " ++ m))

/-- `execPromise(command)`: run the event list starting from empty buffers. -/
def execPromise (command : String) (events : List ProcEvent) : Option ExecResult :=
  execPromiseRun command events "" ""

/-- Concatenation of the stdout chunks among a list of events
(`stdoutBuffer += data`). -/
def outConcat : List ProcEvent → String
  | [] => ""
  | .stdoutData d :: rest => d ++ outConcat rest
  | _ :: rest => outConcat rest

/-- Concatenation of the stderr chunks among a list of events
(`stderrBuffer += data`). -/
def errConcat : List ProcEvent → String
  | [] => ""
  | .stderrData d :: rest => d ++ errConcat rest
  | _ :: rest => errConcat rest

/-! ## String helpers (JavaScript built-ins used by the handlers) -/

/-- Whether `hay` starts with `needle`, over character lists. -/
def listStarts : List Char → List Char → Bool
  | [], _ => true
  | _ :: _, [] => false
  | a :: as, b :: bs => a = b && listStarts as bs

/-- Whether `needle` occurs somewhere inside `hay`, over character lists. -/
def listContains (needle : List Char) : List Char → Bool
  | [] => listStarts needle []
  | b :: bs => listStarts needle (b :: bs) || listContains needle bs

/-- JavaScript `s.includes(sub)`. -/
def jsIncludes (s sub : String) : Bool :=
  listContains sub.toList s.toList

/-- JavaScript `replace(/\s+/g, '-')`: each maximal whitespace run becomes
a single `'-'`. The boolean records whether the scan is inside a
whitespace run whose `'-'` was already emitted. -/
def squashWs : Bool → List Char → List Char
  | _, [] => []
  | inRun, c :: cs =>
    if c.isWhitespace then
      if inRun then squashWs true cs else '-' :: squashWs true cs
    else c :: squashWs false cs

/-- `payload.clusterName.replace(/\s+/g, '-').toLowerCase()` as applied by
the `create` branch of the WebSocket handler. -/
def normalizeClusterName (s : String) : String :=
  String.mk ((squashWs false s.toList).map Char.toLower)

/-- JavaScript `Array.prototype.join(', ')`. -/
def joinComma : List String → String
  | [] => ""
  | [x] => x
  | x :: y :: rest => x ++ ", " ++ joinComma (y :: rest)

/-! ## Streaming executor `executeCommand` (`utils/kubectlUtils.js`) -/

/-- One interleaved output chunk of a child process. -/
inductive Chunk
  | out (s : String)
  | err (s : String)
  deriving Repr, DecidableEq

/-- The behaviour of one spawned child process: either it runs, producing
interleaved chunks and then a `close` event with an exit code, or the spawn
fails with an `error` event. -/
inductive SpawnOutcome
  | runs (chunks : List Chunk) (exitCode : Int)
  | spawnError (msg : String)
  deriving Repr, DecidableEq

/-- The frame `executeCommand` (and the inline create/delete stream
handlers) send for one chunk: stdout verbatim, stderr wrapped in the red
ANSI escape. -/
def chunkFrame : Chunk → Frame
  | .out s => .log s
  | .err s => .log ("\x1b[31m" ++ s ++ "\x1b[0m")

/-- `output` accumulator of `executeCommand`: all stdout chunks. -/
def chunksOut : List Chunk → String
  | [] => ""
  | .out s :: rest => s ++ chunksOut rest
  | .err _ :: rest => chunksOut rest

/-- `errorOutput` accumulator of `executeCommand`: all stderr chunks. -/
def chunksErr : List Chunk → String
  | [] => ""
  | .err s :: rest => s ++ chunksErr rest
  | .out _ :: rest => chunksErr rest

/-- The resolved value of `executeCommand`:
`{success:true, output}` or `{success:false, error}`. -/
inductive CmdOutcome
  | ok (output : String)
  | fail (error : String)
  deriving Repr, DecidableEq

/-- True for the `success:false` shape. -/
def CmdOutcome.isFail : CmdOutcome → Bool
  | .fail _ => true
  | .ok _ => false

/-- `executeCommand(command, ws)`: the frames streamed to the socket (all
`log` frames) and the resolved `{success, output|error}` value, as a
function of the child process behaviour. -/
def executeCommandModel : SpawnOutcome → List Frame × CmdOutcome
  | .runs chunks code =>
    (chunks.map chunkFrame,
     if code = 0 then .ok (chunksOut chunks)
     else .fail (if chunksErr chunks ≠ "" then chunksErr chunks
                 else "Command exited with code " ++ toString code))
  | .spawnError m => ([], .fail m)

/-! ## Retrying executor `executeCommandWithRetry` (`utils/kubectlUtils.js`) -/

/-- The observable trace of one `executeCommandWithRetry` call: the final
resolved value, how many times `executeCommand` was invoked, the texts of
the retry-notice log frames sent, and the sleeps performed. -/
structure RetryTrace where
  outcome : CmdOutcome
  calls : Nat
  retryNotices : List String
  sleeps : List Nat
  deriving Repr, DecidableEq

/-- The text of the retry-notice frame sent after attempt `i` (0-based)
fails: `Retrying command (attempt ${i+1}/${retries}): ${command}`. -/
def retryNoticeText (command : String) (retries i : Nat) : String :=
  "\x1b[33mRetrying command (attempt " ++ toString (i + 1) ++ "/" ++
    toString retries ++ "): " ++ command ++ "\x1b[0m\n"

/-- The loop body of `executeCommandWithRetry`, recursing over the number of
remaining iterations with `i` the current 0-based loop index. After EVERY
failed attempt — the last included — the code sends the retry notice (when
the socket is open) and sleeps `delay`. -/
def retryGo (attempt : Nat → SpawnOutcome) (wsOpen : Bool) (command : String)
    (retries delay : Nat) : Nat → Nat → RetryTrace
  | 0, _ =>
    ⟨.fail ("Command failed after " ++ toString retries ++ " attempts: " ++ command),
     0, [], []⟩
  | remaining + 1, i =>
    match (executeCommandModel (attempt i)).2 with
    | .ok out => ⟨.ok out, 1, [], []⟩
    | .fail _ =>
      let notice := if wsOpen then [retryNoticeText command retries i] else []
      let rest := retryGo attempt wsOpen command retries delay remaining (i + 1)
      ⟨rest.outcome, rest.calls + 1, notice ++ rest.retryNotices, delay :: rest.sleeps⟩

/-- `executeCommandWithRetry(command, ws, retries, delay)`, with the
per-attempt child-process behaviour supplied by the oracle `attempt`. -/
def executeCommandWithRetry (attempt : Nat → SpawnOutcome) (wsOpen : Bool)
    (command : String) (retries delay : Nat) : RetryTrace :=
  retryGo attempt wsOpen command retries delay retries 0

/-! ## JSON values and `JSON.parse` model (for `parseAndHandleJson`) -/

/-- JSON values (numbers restricted to integers; the repository's CLI
outputs parsed through this helper carry integral numbers only). -/
inductive Json
  | null
  | bool (b : Bool)
  | num (n : Int)
  | str (s : String)
  | arr (elems : List Json)
  | obj (members : List (String × Json))
  deriving Repr

/-- Drop leading JSON whitespace. -/
def skipWsChars (cs : List Char) : List Char :=
  cs.dropWhile Char.isWhitespace

/-- Translate a JSON escape character. -/
def unescapeChar (c : Char) : Char :=
  if c = 'n' then '\n' else if c = 't' then '\t' else if c = 'r' then '\r' else c

/-- Parse the body of a JSON string (after the opening quote), returning
the decoded characters and the rest after the closing quote. -/
def parseStrChars : Nat → List Char → Option (List Char × List Char)
  | 0, _ => none
  | _, [] => none
  | fuel + 1, c :: rest =>
    if c = '"' then some ([], rest)
    else if c = '\\' then
      match rest with
      | [] => none
      | e :: rest2 =>
        match parseStrChars fuel rest2 with
        | some (s, r) => some (unescapeChar e :: s, r)
        | none => none
    else
      match parseStrChars fuel rest with
      | some (s, r) => some (c :: s, r)
      | none => none

/-- Numeric value of a digit run. -/
def digitsVal (ds : List Char) : Nat :=
  ds.foldl (fun acc c => acc * 10 + (c.toNat - 48)) 0

/-- Parse a nonempty digit run. -/
def parseDigits (cs : List Char) : Option (Nat × List Char) :=
  let ds := cs.takeWhile Char.isDigit
  if ds.isEmpty then none else some (digitsVal ds, cs.dropWhile Char.isDigit)

mutual

/-- Fuel-indexed recursive-descent parser for one JSON value. -/
def parseVal : Nat → List Char → Option (Json × List Char)
  | 0, _ => none
  | fuel + 1, cs =>
    match skipWsChars cs with
    | [] => none
    | c :: rest =>
      if c = 'n' then
        match rest with
        | 'u' :: 'l' :: 'l' :: r => some (.null, r)
        | _ => none
      else if c = 't' then
        match rest with
        | 'r' :: 'u' :: 'e' :: r => some (.bool true, r)
        | _ => none
      else if c = 'f' then
        match rest with
        | 'a' :: 'l' :: 's' :: 'e' :: r => some (.bool false, r)
        | _ => none
      else if c = '"' then
        match parseStrChars (rest.length + 1) rest with
        | some (s, r) => some (.str (String.mk s), r)
        | none => none
      else if c = '\x7b' then parseObjItems fuel rest
      else if c = '[' then parseArrItems fuel rest
      else if c = '-' then
        match parseDigits rest with
        | some (n, r) => some (.num (-(n : Int)), r)
        | none => none
      else if c.isDigit then
        match parseDigits (c :: rest) with
        | some (n, r) => some (.num (n : Int), r)
        | none => none
      else none

/-- After `[`: empty array or first element then `parseArrRest`. -/
def parseArrItems : Nat → List Char → Option (Json × List Char)
  | 0, _ => none
  | fuel + 1, cs =>
    match skipWsChars cs with
    | ']' :: r => some (.arr [], r)
    | cs2 =>
      match parseVal fuel cs2 with
      | some (v, r) =>
        match parseArrRest fuel r with
        | some (vs, r2) => some (.arr (v :: vs), r2)
        | none => none
      | none => none

/-- After one array element: `,` and another element, or `]`. -/
def parseArrRest : Nat → List Char → Option (List Json × List Char)
  | 0, _ => none
  | fuel + 1, cs =>
    match skipWsChars cs with
    | ']' :: r => some ([], r)
    | ',' :: r =>
      match parseVal fuel r with
      | some (v, r2) =>
        match parseArrRest fuel r2 with
        | some (vs, r3) => some (v :: vs, r3)
        | none => none
      | none => none
    | _ => none

/-- After `{`: empty object or first member then `parseObjRest`. -/
def parseObjItems : Nat → List Char → Option (Json × List Char)
  | 0, _ => none
  | fuel + 1, cs =>
    match skipWsChars cs with
    | '\x7d' :: r => some (.obj [], r)
    | cs2 =>
      match parseMember fuel cs2 with
      | some (kv, r) =>
        match parseObjRest fuel r with
        | some (kvs, r2) => some (.obj (kv :: kvs), r2)
        | none => none
      | none => none

/-- After one object member: `,` and another member, or `}`. -/
def parseObjRest : Nat → List Char → Option (List (String × Json) × List Char)
  | 0, _ => none
  | fuel + 1, cs =>
    match skipWsChars cs with
    | '\x7d' :: r => some ([], r)
    | ',' :: r =>
      match parseMember fuel r with
      | some (kv, r2) =>
        match parseObjRest fuel r2 with
        | some (kvs, r3) => some (kv :: kvs, r3)
        | none => none
      | none => none
    | _ => none

/-- One `"key": value` member of an object. -/
def parseMember : Nat → List Char → Option ((String × Json) × List Char)
  | 0, _ => none
  | fuel + 1, cs =>
    match skipWsChars cs with
    | '"' :: rest =>
      match parseStrChars (rest.length + 1) rest with
      | some (k, r) =>
        match skipWsChars r with
        | ':' :: r2 =>
          match parseVal fuel r2 with
          | some (v, r3) => some ((String.mk k, v), r3)
          | none => none
        | _ => none
      | none => none
    | _ => none

end

/-- Model of JavaScript `JSON.parse`: one value, optionally surrounded by
whitespace, nothing else. -/
def jsonParse (s : String) : Except String Json :=
  match parseVal (2 * s.length + 2) s.toList with
  | some (v, rest) =>
    if (skipWsChars rest).isEmpty then .ok v
    else .error "Unexpected non-whitespace character after JSON data"
  | none => .error "Unexpected token"

/-! ## `parseAndHandleJson` (`utils/kubectlUtils.js`) -/

/-- The prefix of `l` ending at the last occurrence of `c` (inclusive), or
`none` when `c` does not occur: the greedy tail of the regex alternatives
`\x7b[\s\S]*\x7d` and `\[[\s\S]*\]`. -/
def upToLast (c : Char) : List Char → Option (List Char)
  | [] => none
  | x :: xs =>
    match upToLast c xs with
    | some ys => some (x :: ys)
    | none => if x = c then some [x] else none

/-- Leftmost-greedy match of `/(\x7b[\s\S]*\x7d|\[[\s\S]*\])/`: scan left to
right; at the first position holding `\x7b` with a later `\x7d` (or `[` with
a later `]`) return the span up to the last such closer. -/
def firstBracketMatch : List Char → Option (List Char)
  | [] => none
  | c :: cs =>
    if c = '\x7b' then
      match upToLast '\x7d' cs with
      | some ys => some (c :: ys)
      | none => firstBracketMatch cs
    else if c = '[' then
      match upToLast ']' cs with
      | some ys => some (c :: ys)
      | none => firstBracketMatch cs
    else firstBracketMatch cs

/-- `parseAndHandleJson(jsonString, context)`: trim, locate the bracketed
substring via the regex, `JSON.parse` it; a missing structure or a parse
failure becomes an error naming `context`. -/
def parseAndHandleJson (jsonString : String) (context : String) : Except String Json :=
  let cleaned := jsTrim jsonString
  match firstBracketMatch cleaned.toList with
  | none =>
    .error ("No valid JSON structure found for " ++ context ++
      ". Raw output might be empty or malformed.")
  | some sub =>
    match jsonParse (String.mk sub) with
    | .ok v => .ok v
    | .error e =>
      .error ("Failed to parse " ++ context ++
        " as JSON. Raw output might be malformed or contain non-JSON data. Details: " ++ e)

/-- True when a character list holds none of the four bracket characters. -/
def bracketFree (cs : List Char) : Bool :=
  cs.all fun c => c != '\x7b' && c != '\x7d' && c != '[' && c != ']'

/-! ## EKS config generator (`utils/eksConfigGenerator.js`) -/

/-- The `payload` of a `create` message (the frontend form fields consumed
by `generateEksClusterConfig` plus the `albIngressAccess` flag). -/
structure CreatePayload where
  clusterName : String
  region : String
  kubernetesVersion : String
  nodeGroupName : String
  instanceType : String
  desiredCapacity : Int
  minNodes : Int
  maxNodes : Int
  volumeSize : Int
  volumeType : String
  enableSsh : Bool
  sshKeyName : String
  enableEbsCsiAccess : Bool
  enableEfsCsiAccess : Bool
  albIngressAccess : Bool
  deriving Repr, DecidableEq

/-- `generateEksClusterConfig(config)`: the YAML string fed to
`eksctl create cluster -f -` over stdin. Note it receives the raw payload;
in particular `metadata.name` is the raw `clusterName`. -/
def generateEksClusterConfig (p : CreatePayload) : String :=
  let base :=
    "\napiVersion: eksctl.io/v1alpha5\nkind: ClusterConfig\n\nmetadata:\n  name: " ++
    p.clusterName ++ "\n  region: " ++ p.region ++ "\n  version: \"" ++
    p.kubernetesVersion ++ "\"\n\niam:\n  withOIDC: true"
  let nodeGroup :=
    "\nmanagedNodeGroups:\n  - name: " ++ p.nodeGroupName ++
    "\n    instanceType: " ++ p.instanceType ++
    "\n    desiredCapacity: " ++ toString p.desiredCapacity ++
    "\n    minSize: " ++ toString p.minNodes ++
    "\n    maxSize: " ++ toString p.maxNodes ++
    "\n    volumeSize: " ++ toString p.volumeSize ++
    "\n    volumeType: " ++ p.volumeType ++
    "\n    ssh:\n      allow: " ++ (if p.enableSsh then "true" else "false") ++ "\n"
  let sshKey :=
    if p.enableSsh ∧ p.sshKeyName ≠ "" then
      "\n      publicKeyName: " ++ p.sshKeyName ++ "\n"
    else ""
  let ebs :=
    if p.enableEbsCsiAccess then
      "\n  - name: aws-ebs-csi-driver\n    wellKnownPolicies:\n      ebsCSIController: true\n"
    else ""
  let efs :=
    if p.enableEfsCsiAccess then
      "\n  - name: aws-efs-csi-driver\n    wellKnownPolicies:\n      efsCSIController: true\n"
    else ""
  base ++ nodeGroup ++ sshKey ++ "\naddons:" ++ ebs ++ efs ++ "\n  - name: vpc-cni\n"

/-! ## `eks-cli-stream` orchestrator (`websocket/kubernetesWsHandlers.js`) -/

/-- One entry of `EvaluationResults` in the output of
`aws iam simulate-principal-policy`. -/
structure EvalResult where
  evalActionName : String
  evalDecision : String
  deriving Repr, DecidableEq

/-- Outcome of the pre-flight block: either both CLI calls succeeded and
`JSON.parse` produced evaluation results, or some step threw (the `catch`
around the block). -/
inductive PreflightOutcome
  | results (rs : List EvalResult)
  | threw (msg : String)
  deriving Repr, DecidableEq

/-- `parsedResult.EvaluationResults.filter(res => res.EvalDecision !== 'allowed')`. -/
def deniedOf (rs : List EvalResult) : List EvalResult :=
  rs.filter fun r => r.evalDecision ≠ "allowed"

/-- Behaviour oracle for the post-creation steps. These live in
`utils/clusterUtils.js`, which is a file of this repository not present
under `src/`.

Modelled from the spec: `applyDefaultStorageClass`, `installCertManager`,
`createOrVerifyAlbIamPolicy`, `createAlbIamServiceAccount` and
`installAlbControllerManifest` stream progress as `log` frames and report
success/failure to the caller (a boolean, or a thrown error for the policy
step); per spec §4.3 steps 5–6 their failures are logged, never terminal. -/
structure PostCreateOracle where
  storageLogs : List String
  certManagerOk : Bool
  certManagerLogs : List String
  albPolicyOutcome : Except String String
  albPolicyLogs : List String
  iamSaOk : Bool
  iamSaLogs : List String
  albManifestLogs : List String

/-- The frames the post-creation block of the `close` handler sends, given
the oracle. Transcribed from lines 150–176 of
`websocket/kubernetesWsHandlers.js`: storage class first, then — only when
`payload.albIngressAccess` — the cert-manager / IAM policy / IAM service
account / manifest chain, each failure short-circuiting the rest of the
chain with a red `log` frame. -/
def postCreateFrames (alb : Bool) (o : PostCreateOracle) : List Frame :=
  (o.storageLogs.map Frame.log) ++
  (if alb then
    (o.certManagerLogs.map Frame.log) ++
    (if o.certManagerOk then
      (o.albPolicyLogs.map Frame.log) ++
      (match o.albPolicyOutcome with
       | .error m =>
         [Frame.log ("\x1b[31mAn error occurred during ALB Controller setup: " ++
           m ++ ".\x1b[0m\n")]
       | .ok _ =>
         (o.iamSaLogs.map Frame.log) ++
         (if o.iamSaOk then o.albManifestLogs.map Frame.log
          else
            [Frame.log ("\x1b[31mCould not create IAM Service Account for ALB. The controller will not function correctly.\x1b[0m\n")]))
     else
       [Frame.log ("\x1b[31mFailed to install cert-manager. Skipping ALB Controller installation.\x1b[0m\n")])
   else [])

/-- Environment oracle for one `create` session. -/
structure CreateOracle where
  preflight : PreflightOutcome
  check : SpawnOutcome
  creation : SpawnOutcome
  post : PostCreateOracle

/-- Observable trace of one `eks-cli-stream` command: the frames sent over
the socket (in order) and bookkeeping on which external steps ran. -/
structure SessionTrace where
  frames : List Frame
  checkInvoked : Bool
  checkCommand : Option String
  creationSpawned : Bool
  creationStdin : Option String
  deleteArgs : Option (List String)
  deriving Repr, DecidableEq

/-- The `commandType === 'create'` branch of the message handler, for a
client that stays connected: the complete frame trace and step bookkeeping
as a function of the payload and the environment oracle. -/
def createSession (p : CreatePayload) (o : CreateOracle) : SessionTrace :=
  let name := normalizeClusterName p.clusterName
  let preBanner :=
    Frame.log "\n--- Running pre-flight permission check for IAM role creation ---\n"
  match o.preflight with
  | .threw m =>
    ⟨[preBanner,
      .error ("Failed during IAM pre-flight check: " ++ m ++
        ". This could be due to missing \x27iam:SimulatePrincipalPolicy\x27 or \x27sts:GetCallerIdentity\x27 permissions.")],
     false, none, false, none, none⟩
  | .results rs =>
    let denied := deniedOf rs
    if denied.isEmpty = false then
      let deniedActions := joinComma (denied.map EvalResult.evalActionName)
      ⟨[preBanner,
        .error ("Pre-flight check failed. Missing permissions: " ++ deniedActions ++
          ". Please grant these permissions to your IAM user and try again.")],
       false, none, false, none, none⟩
    else
      let checkCommand :=
        "eksctl get cluster --name=" ++ name ++ " --region=" ++ p.region ++
        " --output json"
      let (checkFrames, checkOutcome) := executeCommandModel o.check
      let head :=
        [preBanner,
         Frame.log "IAM permission check successful. Proceeding with cluster creation.\n",
         Frame.log ("\nChecking for existing cluster \x27" ++ name ++
           "\x27 in region \x27" ++ p.region ++ "\x27...\n")] ++ checkFrames
      match checkOutcome with
      | .ok _ =>
        ⟨head ++ [.error ("Cluster \x27" ++ name ++ "\x27 already exists in region \x27" ++
           p.region ++ "\x27.")],
         true, some checkCommand, false, none, none⟩
      | .fail e =>
        if e ≠ "" ∧ jsIncludes e "ResourceNotFoundException" = false then
          ⟨head ++ [.error ("Failed to check for existing cluster: " ++ e)],
           true, some checkCommand, false, none, none⟩
        else
          let cfg := generateEksClusterConfig p
          let proceed :=
            head ++
            [Frame.log ("Cluster \x27" ++ name ++
               "\x27 does not exist. Proceeding with creation.\n"),
             Frame.log ("\n--- Generated eksctl Configuration ---\n" ++ cfg ++
               "\n------------------------------------\n")]
          match o.creation with
          | .spawnError m =>
            ⟨proceed ++ [.error ("Failed to spawn EKS process: " ++ m)],
             true, some checkCommand, true, some cfg, none⟩
          | .runs chunks code =>
            let streamFrames := chunks.map chunkFrame
            if code = 0 then
              ⟨proceed ++ streamFrames ++ postCreateFrames p.albIngressAccess o.post ++
               [Frame.log "\n--- Waiting for 15 seconds for API server to stabilize before deploying monitoring stack... ---\n",
                .complete ("Cluster \x27" ++ name ++
                  "\x27 and all selected add-ons created successfully.")],
               true, some checkCommand, true, some cfg, none⟩
            else
              ⟨proceed ++ streamFrames ++
               [.error ("Cluster creation failed with code " ++ toString code ++ ".")],
               true, some checkCommand, true, some cfg, none⟩

/-- The `payload` of a `delete` message. -/
structure DeletePayload where
  clusterName : String
  region : String
  deriving Repr, DecidableEq

/-- The `commandType === 'delete'` branch of the message handler, for a
client that stays connected. The spawn arguments carry the raw
`clusterName`, with no normalization. -/
def deleteSession (p : DeletePayload) (o : SpawnOutcome) : SessionTrace :=
  let args :=
    ["delete", "cluster", "--name=" ++ p.clusterName, "--region=" ++ p.region]
  match o with
  | .spawnError m =>
    ⟨[.error ("Failed to spawn EKS delete process: " ++ m)],
     false, none, true, none, some args⟩
  | .runs chunks code =>
    let fs := chunks.map chunkFrame
    if code = 0 then
      ⟨fs ++ [.complete ("Cluster \x27" ++ p.clusterName ++ "\x27 deleted successfully.")],
       false, none, true, none, some args⟩
    else
      ⟨fs ++ [.error ("Cluster deletion failed with code " ++ toString code ++ ".")],
       false, none, true, none, some args⟩

/-- A first inbound message on an `eks-cli-stream` socket: a parsed
`create`, a parsed `delete` (each with its environment oracle), or a
message `JSON.parse` rejects. -/
inductive ClientMsg
  | create (p : CreatePayload) (o : CreateOracle)
  | delete (p : DeletePayload) (o : SpawnOutcome)
  | malformed (m : String)

/-- Frames sent over the socket for one session (client connected
throughout). A malformed message draws a single error frame
(`Invalid message format: ...`) and socket closure. -/
def sessionFrames : ClientMsg → List Frame
  | .create p o => (createSession p o).frames
  | .delete p o => (deleteSession p o).frames
  | .malformed m => [.error ("Invalid message format: " ++ m)]

/-! ## Process lifecycle (`cleanupEksProcessResources`, `ws.on('close')`) -/

/-- The per-connection bookkeeping of the `eks-cli-stream` handler:
whether `eksProcess` is non-null, the `eksProcessExited` flag, and whether
the data/close/error listeners are still attached. -/
structure LifecycleState where
  procPresent : Bool
  procExited : Bool
  listenersAttached : Bool
  deriving Repr, DecidableEq

/-- Effect of one `cleanupEksProcessResources()` call: the new bookkeeping
state and the signal sent to the child process, if any. -/
structure CleanupEffect where
  state : LifecycleState
  killedSignal : Option String
  deriving Repr, DecidableEq

/-- `cleanupEksProcessResources` (lines 29–44): when a process handle
exists, detach all of its listeners, send `SIGKILL` unless
`eksProcessExited` is already set, and null the reference. -/
def cleanupEksProcessResources (s : LifecycleState) : CleanupEffect :=
  if s.procPresent then
    { state := { procPresent := false, procExited := s.procExited,
                 listenersAttached := false },
      killedSignal := if s.procExited then none else some "SIGKILL" }
  else { state := s, killedSignal := none }

/-- The `ws.on('close')` handler (lines 258–261) calls
`cleanupEksProcessResources()` and nothing else. -/
def onWsClose (s : LifecycleState) : CleanupEffect :=
  cleanupEksProcessResources s

/-! ## Port-forward singleton (`routes/kubernetesRoutes.js`) -/

/-- An event observed on the `kubectl port-forward` child process. -/
inductive PFEvent
  | out (s : String)
  | errData (s : String)
  | closed (code : Int)
  | spawnFailed (msg : String)
  deriving Repr, DecidableEq

/-- The HTTP response of `/kube-start-port-forward`: 200 with the port
(fresh start confirmed by the `Forwarding from` output), 200 for an
already-active handle, or 500. -/
inductive PFResponse
  | started (port : Nat)
  | already (port : Nat)
  | failed (msg : String)
  deriving Repr, DecidableEq

/-- The port named in a 200 response, if any. -/
def PFResponse.port? : PFResponse → Option Nat
  | .started p => some p
  | .already p => some p
  | .failed _ => none

/-- The first response the fresh-start handlers send (`headersSent` guards
every later one): a stdout chunk containing `Forwarding from` resolves 200
with the local port 8080; a stderr chunk or a spawn error resolves 500;
the `close` event sends no response. -/
def pfFirstResponse : List PFEvent → Option PFResponse
  | [] => none
  | .out s :: rest =>
    if jsIncludes s "Forwarding from" then some (.started 8080)
    else pfFirstResponse rest
  | .errData m :: _ => some (.failed ("Failed to start port-forwarding: " ++ m))
  | .closed _ :: rest => pfFirstResponse rest
  | .spawnFailed _ :: _ => some (.failed "Failed to spawn kubectl port-forward process.")

/-- Whether `req.app.locals.portForwardProcess` is still set after the
events: the stderr, close and error handlers each null it, and nothing
re-sets it, so the handle survives exactly when every event was a stdout
chunk. -/
def pfHandleAfter : List PFEvent → Bool
  | [] => true
  | .out _ :: rest => pfHandleAfter rest
  | _ :: _ => false

/-- Result of one `POST /kube-start-port-forward` call. -/
structure PFStartResult where
  spawned : Bool
  response : Option PFResponse
  handleAfter : Bool
  deriving Repr, DecidableEq

/-- `POST /kube-start-port-forward`: with a live handle, immediately answer
200 `{port: 8080}` and spawn nothing; otherwise spawn `kubectl
port-forward`, store the handle at once, and let the subprocess events
determine the response and the handle's survival. -/
def startPortForward (handlePresent : Bool) (events : List PFEvent) : PFStartResult :=
  if handlePresent then ⟨false, some (.already 8080), true⟩
  else ⟨true, pfFirstResponse events, pfHandleAfter events⟩

/-- `POST /kube-stop-port-forward`: kill and clear an existing handle
(returns whether a SIGTERM was sent; the handle is clear afterwards). -/
def stopPortForward (handlePresent : Bool) : Bool × Bool :=
  (handlePresent, false)

/-! ## Theorems -/

/-- C6: for every key, ttl and forceRefresh flag, `getCachedData` returns
the stored value exactly when an entry for the key exists, `forceRefresh`
is falsy and `now - storedAt ≤ ttl`; it returns absent whenever
`forceRefresh` is truthy, regardless of freshness; and `setCacheData`
unconditionally overwrites the entry, stamping the current time. -/
theorem cache_get_iff_fresh_and_set_overwrites {V : Type}
    (cache : List (String × CacheEntry V)) (key : String) (ttl : Int)
    (force : Bool) (now : Int) :
    (∀ v : V, getCachedData cache key ttl force now = some v ↔
      ∃ e, cache.lookup key = some e ∧ e.data = v ∧ force = false ∧
        now - e.timestamp ≤ ttl)
    ∧ getCachedData cache key ttl true now = none
    ∧ ∀ v : V, (setCacheData cache key v now).lookup key =
        some ⟨v, now⟩ := by
  refine ⟨?_, ?_, ?_⟩
  · intro v
    cases hcl : cache.lookup key with
    | none => simp [getCachedData, hcl]
    | some e =>
      cases force with
      | true => simp [getCachedData, hcl]
      | false =>
        by_cases ht : now - e.timestamp > ttl
        · simp only [getCachedData, hcl, Bool.false_eq_true, if_false, ht, if_true]
          constructor
          · intro h; cases h
          · rintro ⟨e', he', -, -, hle⟩
            cases he'
            omega
        · simp only [getCachedData, hcl, Bool.false_eq_true, if_false, ht, if_true]
          constructor
          · rintro h
            cases h
            exact ⟨e, rfl, rfl, by trivial, by omega⟩
          · rintro ⟨e', he', hd, -, -⟩
            cases he'
            rw [hd]
  · cases hcl : cache.lookup key with
    | none => simp [getCachedData, hcl]
    | some e => simp [getCachedData, hcl]
  · intro v
    simp [setCacheData, List.lookup]

/-- C7: the one-shot executor resolves with the trimmed accumulated stdout
when the process exits with code 0; on nonzero exit it rejects with an
error whose message is the trimmed stderr, falling back to the trimmed
stdout if stderr is empty, and to the generic `Command exited with code N`
message if both are empty, in that priority. -/
theorem execPromise_resolution (command : String) (chunks : List ProcEvent)
    (code : Int) (hdata : ∀ e ∈ chunks, e.isData = true) :
    (code = 0 →
      execPromise command (chunks ++ [.closed code]) =
        some (.ok (jsTrim (outConcat chunks))))
    ∧ (code ≠ 0 → errConcat chunks ≠ "" →
      execPromise command (chunks ++ [.closed code]) =
        some (.err (jsTrim (errConcat chunks))))
    ∧ (code ≠ 0 → errConcat chunks = "" → outConcat chunks ≠ "" →
      execPromise command (chunks ++ [.closed code]) =
        some (.err (jsTrim (outConcat chunks))))
    ∧ (code ≠ 0 → errConcat chunks = "" → outConcat chunks = "" →
      execPromise command (chunks ++ [.closed code]) =
        some (.err (jsTrim ("Command exited with code " ++ toString code)))) := by
  have key : ∀ (cs : List ProcEvent), (∀ e ∈ cs, e.isData = true) → ∀ so se,
      execPromiseRun command (cs ++ [.closed code]) so se =
        some (execPromiseSettle (so ++ outConcat cs) (se ++ errConcat cs) code) := by
    intro cs
    induction cs with
    | nil =>
      intro _ so se
      simp [execPromiseRun, outConcat, errConcat, String.append_empty]
    | cons e rest ih =>
      intro hall so se
      have hrest : ∀ x ∈ rest, x.isData = true :=
        fun x hx => hall x (List.mem_cons_of_mem _ hx)
      cases e with
      | stdoutData d =>
        simp only [List.cons_append, execPromiseRun, List.append_eq]
        rw [ih hrest (so ++ d) se]
        simp [outConcat, errConcat, String.append_assoc]
      | stderrData d =>
        simp only [List.cons_append, execPromiseRun, List.append_eq]
        rw [ih hrest so (se ++ d)]
        simp [errConcat, outConcat, String.append_assoc]
      | closed c => exact absurd (hall _ (List.mem_cons_self _ _)) (by simp [ProcEvent.isData])
      | errored m => exact absurd (hall _ (List.mem_cons_self _ _)) (by simp [ProcEvent.isData])
  have base := key chunks hdata "" ""
  rw [String.empty_append, String.empty_append] at base
  refine ⟨?_, ?_, ?_, ?_⟩
  · intro h0
    rw [execPromise, base, execPromiseSettle, if_pos h0]
  · intro hne herr
    rw [execPromise, base, execPromiseSettle, if_neg hne]
    simp only [herr, if_true, ne_eq, not_false_eq_true, ite_true]
  · intro hne herr hout
    rw [execPromise, base, execPromiseSettle, if_neg hne]
    simp only [herr, hout, ne_eq, not_true_eq_false, ite_false, not_false_eq_true, ite_true]
  · intro hne herr hout
    rw [execPromise, base, execPromiseSettle, if_neg hne]
    simp only [herr, hout, ne_eq, not_true_eq_false, ite_false]

/-- Witness for `execPromise_resolution` at a concrete failing run:
one stdout chunk, one stderr chunk, exit code 2. -/
theorem execPromise_resolution_witness :
    execPromise "kubectl get pods"
        [.stdoutData "partial", .stderrData " boom\n", .closed 2] =
      some (.err "boom") := by
  have h := (execPromise_resolution "kubectl get pods"
      [.stdoutData "partial", .stderrData " boom\n"] 2
      (by intro e he; fin_cases he <;> rfl)).2.1
    (by decide) (by decide)
  exact h

/-- The retrying loop performs at most `remaining` `executeCommand` calls. -/
theorem retryGo_calls_le (attempt : Nat → SpawnOutcome) (wsOpen : Bool)
    (command : String) (retries delay : Nat) :
    ∀ remaining i,
      (retryGo attempt wsOpen command retries delay remaining i).calls ≤ remaining := by
  intro remaining
  induction remaining with
  | zero => intro i; simp [retryGo]
  | succ r ih =>
    intro i
    simp only [retryGo]
    cases (executeCommandModel (attempt i)).2 with
    | ok out => simp
    | fail e =>
      simp only
      have := ih (i + 1)
      omega

/-- When every attempt in the window fails, the retrying loop runs all of
them, sends a retry notice and sleeps after each one — the last included —
and resolves with the exhaustion error. -/
theorem retryGo_all_fail (attempt : Nat → SpawnOutcome) (command : String)
    (retries delay : Nat) :
    ∀ remaining i,
      (∀ j, i ≤ j → j < i + remaining →
        ((executeCommandModel (attempt j)).2).isFail = true) →
      retryGo attempt true command retries delay remaining i =
        ⟨.fail ("Command failed after " ++ toString retries ++ " attempts: " ++ command),
         remaining,
         (List.range' i remaining).map (retryNoticeText command retries),
         List.replicate remaining delay⟩ := by
  intro remaining
  induction remaining with
  | zero => intro i _; simp [retryGo, List.range']
  | succ r ih =>
    intro i hf
    have hi : ((executeCommandModel (attempt i)).2).isFail = true :=
      hf i (Nat.le_refl i) (by omega)
    obtain ⟨e, he⟩ : ∃ e, (executeCommandModel (attempt i)).2 = .fail e := by
      cases h : (executeCommandModel (attempt i)).2 with
      | ok out => rw [h] at hi; simp [CmdOutcome.isFail] at hi
      | fail e => exact ⟨e, rfl⟩
    simp only [retryGo, he]
    rw [ih (i + 1) (fun j hj1 hj2 => hf j (by omega) (by omega))]
    simp [List.range', List.replicate]

/-- C3 counterexample: with `maxAttempts = 2` and both attempts failing,
the retrying executor emits TWO retry-notice frames and sleeps TWICE — the
notice and the sleep also follow the final failed attempt, contradicting
"after each failed attempt except the last". -/
theorem retry_notice_after_last_attempt_cex :
    (executeCommandWithRetry (fun _ => .runs [.err "boom"] 1) true
        "kubectl get nodes" 2 5).retryNotices.length = 2
    ∧ (executeCommandWithRetry (fun _ => .runs [.err "boom"] 1) true
        "kubectl get nodes" 2 5).sleeps = [5, 5]
    ∧ ¬ ((executeCommandWithRetry (fun _ => .runs [.err "boom"] 1) true
        "kubectl get nodes" 2 5).retryNotices.length ≤ 1) := by
  refine ⟨rfl, rfl, ?_⟩
  intro h
  simp [executeCommandWithRetry, retryGo, executeCommandModel, chunksErr] at h

/-- C3 (amended): the streaming executor is invoked at most `maxAttempts`
times; after EVERY failed attempt — the last included — the executor emits
a retry-notice log frame and sleeps `delayMs`; and it returns failure only
after all attempts are exhausted, with the exhaustion error message. -/
theorem retry_executor_amended (attempt : Nat → SpawnOutcome) (command : String)
    (retries delay : Nat)
    (hfail : ∀ j, j < retries → ((executeCommandModel (attempt j)).2).isFail = true) :
    (∀ att2 : Nat → SpawnOutcome,
      (executeCommandWithRetry att2 true command retries delay).calls ≤ retries)
    ∧ (executeCommandWithRetry attempt true command retries delay).calls = retries
    ∧ (executeCommandWithRetry attempt true command retries delay).outcome =
        .fail ("Command failed after " ++ toString retries ++ " attempts: " ++ command)
    ∧ (executeCommandWithRetry attempt true command retries delay).retryNotices =
        (List.range retries).map (retryNoticeText command retries)
    ∧ (executeCommandWithRetry attempt true command retries delay).sleeps =
        List.replicate retries delay := by
  have hall := retryGo_all_fail attempt command retries delay retries 0
    (fun j hj1 hj2 => hfail j (by omega))
  rw [executeCommandWithRetry, hall]
  refine ⟨fun att2 => retryGo_calls_le att2 true command retries delay retries 0,
    rfl, rfl, ?_, rfl⟩
  rw [List.range_eq_range']

/-- Witness for `retry_executor_amended`: two attempts that both exit with
code 3 produce two sleeps of 7 ms. -/
theorem retry_executor_amended_witness :
    (executeCommandWithRetry (fun _ => .runs [] 3) true "kubectl get svc" 2 7).sleeps =
      List.replicate 2 7 :=
  (retry_executor_amended (fun _ => .runs [] 3) "kubectl get svc" 2 7
    (fun _ _ => rfl)).2.2.2.2

/-- C1 counterexample: a session whose create/delete subprocess is mid-run
(`eksProcess` set, `eksProcessExited` still false): the `ws.on('close')`
handler runs `cleanupEksProcessResources`, which sends SIGKILL — the
subprocess does NOT run to completion server-side after the client
WebSocket closes. -/
theorem ws_close_kills_running_process_cex :
    (onWsClose ⟨true, false, true⟩).killedSignal = some "SIGKILL"
    ∧ ¬ ((onWsClose ⟨true, false, true⟩).killedSignal = none) := by
  exact ⟨rfl, by decide⟩

/-- C1 (amended): when the client WebSocket closes while a child process
handle exists and the process has not already exited, the handler detaches
all listeners, force-kills the process with SIGKILL and nulls the
reference; no kill is sent when the process already exited or no handle
exists. -/
theorem ws_close_cleanup_amended (s : LifecycleState) :
    (s.procPresent = true → s.procExited = false →
      (onWsClose s).killedSignal = some "SIGKILL"
      ∧ (onWsClose s).state.listenersAttached = false
      ∧ (onWsClose s).state.procPresent = false)
    ∧ (s.procExited = true → (onWsClose s).killedSignal = none)
    ∧ (s.procPresent = false →
        (onWsClose s).killedSignal = none ∧ (onWsClose s).state = s) := by
  obtain ⟨p, ex, l⟩ := s
  cases p <;> cases ex <;> cases l <;>
    simp [onWsClose, cleanupEksProcessResources]

/-- Witness for `ws_close_cleanup_amended` at the mid-run state. -/
theorem ws_close_cleanup_amended_witness :
    (onWsClose ⟨true, false, true⟩).state.listenersAttached = false :=
  ((ws_close_cleanup_amended ⟨true, false, true⟩).1 rfl rfl).2.1

/-- C9: calling port-forward start() twice without an intervening stop() —
the first start's subprocess having confirmed readiness over stdout and
neither errored nor exited — yields the port 8080 in both responses and
spawns exactly one subprocess: the second call is a no-op answering with
the existing port. -/
theorem port_forward_start_idempotent (evs1 evs2 : List PFEvent)
    (hready : pfFirstResponse evs1 = some (.started 8080))
    (halive : pfHandleAfter evs1 = true) :
    (startPortForward false evs1).spawned = true
    ∧ (startPortForward (startPortForward false evs1).handleAfter evs2).spawned = false
    ∧ ((startPortForward false evs1).response.bind PFResponse.port?) = some 8080
    ∧ ((startPortForward (startPortForward false evs1).handleAfter
          evs2).response.bind PFResponse.port?) = some 8080
    ∧ (startPortForward (startPortForward false evs1).handleAfter evs2).response =
        some (.already 8080) := by
  simp [startPortForward, hready, halive, PFResponse.port?]

/-- Witness for `port_forward_start_idempotent`: the forward subprocess
prints the readiness line and stays alive. -/
theorem port_forward_start_idempotent_witness :
    (startPortForward
        (startPortForward false
          [PFEvent.out "Forwarding from 127.0.0.1:8080 -> 3000"]).handleAfter
        []).response = some (.already 8080) :=
  (port_forward_start_idempotent
    [PFEvent.out "Forwarding from 127.0.0.1:8080 -> 3000"] [] rfl rfl).2.2.2.2

/-- C4: when the IAM pre-flight simulation reports at least one required
action with a decision other than `allowed`, the orchestrator aborts
before invoking the existence check or the cluster-creation subprocess,
emitting exactly one error frame, and that frame names the denied
actions. -/
theorem preflight_denial_aborts (p : CreatePayload) (o : CreateOracle)
    (rs : List EvalResult) (hpre : o.preflight = .results rs)
    (hdenied : (deniedOf rs).isEmpty = false) :
    (createSession p o).checkInvoked = false
    ∧ (createSession p o).creationSpawned = false
    ∧ (createSession p o).frames.filter Frame.isError =
        [.error ("Pre-flight check failed. Missing permissions: " ++
          joinComma ((deniedOf rs).map EvalResult.evalActionName) ++
          ". Please grant these permissions to your IAM user and try again.")]
    ∧ ((createSession p o).frames.filter Frame.isError).length = 1 := by
  simp [createSession, hpre, hdenied, List.filter, Frame.isError]

/-- Witness for `preflight_denial_aborts`: `iam:CreateRole` evaluates to
`explicitDeny`. -/
theorem preflight_denial_aborts_witness :
    (createSession
      ⟨"demo", "us-east-1", "1.29", "ng-1", "t3.medium", 2, 1, 3, 20, "gp3",
        false, "", false, false, false⟩
      ⟨.results [⟨"iam:CreateRole", "explicitDeny"⟩],
       .runs [] 0, .runs [] 0,
       ⟨[], true, [], .ok "arn:aws:iam::policy/AWSLoadBalancerControllerIAMPolicy",
        [], true, [], []⟩⟩).creationSpawned = false :=
  (preflight_denial_aborts _ _ [⟨"iam:CreateRole", "explicitDeny"⟩] rfl rfl).2.1

/-- C5: after a passing pre-flight, the existence check decides the path —
a successful lookup aborts with the already-exists error; a failure whose
error mentions `ResourceNotFoundException` is treated as "does not exist"
and the session proceeds to config generation and the creation subprocess;
a failure with any other (nonempty) error aborts with the check-failure
error. -/
theorem existence_check_gate (p : CreatePayload) (o : CreateOracle)
    (rs : List EvalResult) (hpre : o.preflight = .results rs)
    (hallowed : (deniedOf rs).isEmpty = true) :
    (∀ out, (executeCommandModel o.check).2 = .ok out →
      (createSession p o).creationSpawned = false
      ∧ (createSession p o).frames.getLast? =
          some (.error ("Cluster \x27" ++ normalizeClusterName p.clusterName ++
            "\x27 already exists in region \x27" ++ p.region ++ "\x27.")))
    ∧ (∀ e, (executeCommandModel o.check).2 = .fail e →
        jsIncludes e "ResourceNotFoundException" = true →
        (createSession p o).creationSpawned = true
        ∧ (createSession p o).creationStdin = some (generateEksClusterConfig p))
    ∧ (∀ e, (executeCommandModel o.check).2 = .fail e → e ≠ "" →
        jsIncludes e "ResourceNotFoundException" = false →
        (createSession p o).creationSpawned = false
        ∧ (createSession p o).frames.getLast? =
            some (.error ("Failed to check for existing cluster: " ++ e))) := by
  have hde : ((deniedOf rs).isEmpty = false) = False := by
    simp [hallowed]
  rcases hE : executeCommandModel o.check with ⟨cfs, co⟩
  refine ⟨?_, ?_, ?_⟩
  · intro out hok
    have hco : co = .ok out := hok
    subst hco
    simp only [createSession, hpre, hde, hE, if_false]
    refine ⟨by trivial, ?_⟩
    rw [List.getLast?_concat]
  · intro e hfail hrnfe
    have hco : co = .fail e := hfail
    subst hco
    have hcond : (e ≠ "" ∧ jsIncludes e "ResourceNotFoundException" = false) = False := by
      simp [hrnfe]
    cases hc : o.creation with
    | spawnError m => simp [createSession, hpre, hde, hE, hcond, hc]
    | runs chunks code =>
      by_cases h0 : code = 0 <;>
        simp [createSession, hpre, hde, hE, hcond, hc, h0]
  · intro e hfail hne hrnfe
    have hco : co = .fail e := hfail
    subst hco
    have hcond : (e ≠ "" ∧ jsIncludes e "ResourceNotFoundException" = false) = True := by
      simp [hrnfe, hne]
    simp only [createSession, hpre, hde, hE, hcond, if_true, if_false]
    refine ⟨by trivial, ?_⟩
    rw [List.getLast?_concat]

/-- Witness for `existence_check_gate`: the existence check fails with a
`ResourceNotFoundException`-shaped stderr and the session proceeds to
creation. -/
theorem existence_check_gate_witness :
    (createSession
      ⟨"demo", "us-east-1", "1.29", "ng-1", "t3.medium", 2, 1, 3, 20, "gp3",
        false, "", false, false, false⟩
      ⟨.results [],
       .runs [.err "Error: ResourceNotFoundException: No cluster found for name: demo."] 1,
       .runs [.out "creating cluster\n"] 0,
       ⟨[], true, [], .ok "arn:aws:iam::policy/AWSLoadBalancerControllerIAMPolicy",
        [], true, [], []⟩⟩).creationSpawned = true :=
  ((existence_check_gate
      ⟨"demo", "us-east-1", "1.29", "ng-1", "t3.medium", 2, 1, 3, 20, "gp3",
        false, "", false, false, false⟩
      ⟨.results [],
       .runs [.err "Error: ResourceNotFoundException: No cluster found for name: demo."] 1,
       .runs [.out "creating cluster\n"] 0,
       ⟨[], true, [], .ok "arn:aws:iam::policy/AWSLoadBalancerControllerIAMPolicy",
        [], true, [], []⟩⟩
      [] rfl rfl).2.1
    "Error: ResourceNotFoundException: No cluster found for name: demo."
    rfl rfl).1

/-- The shape required of a session's frame sequence: zero or more `log`
frames, then exactly one terminal frame, which is last. -/
def LogsThenOneTerminal (fs : List Frame) : Prop :=
  ∃ logs t, fs = logs ++ [t]
    ∧ logs.all Frame.isLog = true
    ∧ t.isTerminal = true
    ∧ fs.filter Frame.isTerminal = [t]

/-- A frame is terminal exactly when it is not a log frame. -/
theorem isTerminal_eq_not_isLog (f : Frame) : f.isTerminal = !f.isLog := by
  cases f <;> rfl

/-- All-log lists contribute nothing to the terminal filter. -/
theorem filter_terminal_of_all_log :
    ∀ l : List Frame, l.all Frame.isLog = true → l.filter Frame.isTerminal = [] := by
  intro l h
  induction l with
  | nil => rfl
  | cons f rest ih =>
    rw [List.all_cons, Bool.and_eq_true] at h
    rw [List.filter_cons, isTerminal_eq_not_isLog, h.1]
    simpa using ih h.2

/-- Packaging lemma: a trace of the form `logs ++ [terminal]` satisfies the
ordering invariant. -/
theorem logsThenOneTerminal_of_eq (fs : List Frame) (pre : List Frame) (t : Frame)
    (hfs : fs = pre ++ [t]) (hpre : pre.all Frame.isLog = true)
    (ht : t.isTerminal = true) : LogsThenOneTerminal fs := by
  refine ⟨pre, t, hfs, hpre, ht, ?_⟩
  rw [hfs, List.filter_append, filter_terminal_of_all_log pre hpre,
    List.nil_append, List.filter_cons, ht]
  rfl

/-- Mapped log texts are all log frames. -/
theorem all_isLog_map_log (xs : List String) :
    (xs.map Frame.log).all Frame.isLog = true := by
  rw [List.all_eq_true]
  rintro f hf
  rw [List.mem_map] at hf
  obtain ⟨x, -, rfl⟩ := hf
  rfl

/-- Stream chunks become log frames only. -/
theorem all_isLog_chunkFrames (chunks : List Chunk) :
    (chunks.map chunkFrame).all Frame.isLog = true := by
  rw [List.all_eq_true]
  rintro f hf
  rw [List.mem_map] at hf
  obtain ⟨c, -, rfl⟩ := hf
  cases c <;> rfl

/-- `executeCommand` streams log frames only. -/
theorem all_isLog_executeCommand (so : SpawnOutcome) :
    (executeCommandModel so).1.all Frame.isLog = true := by
  cases so with
  | runs chunks code => exact all_isLog_chunkFrames chunks
  | spawnError m => rfl

/-- The post-creation steps emit log frames only. -/
theorem all_isLog_postCreate (alb : Bool) (po : PostCreateOracle) :
    (postCreateFrames alb po).all Frame.isLog = true := by
  unfold postCreateFrames
  cases alb with
  | false => simp [all_isLog_map_log]
  | true =>
    rw [List.all_append, Bool.and_eq_true]
    refine ⟨all_isLog_map_log _, ?_⟩
    simp only [if_true]
    rw [List.all_append, Bool.and_eq_true]
    refine ⟨all_isLog_map_log _, ?_⟩
    cases po.certManagerOk with
    | false => rfl
    | true =>
      simp only [if_true]
      rw [List.all_append, Bool.and_eq_true]
      refine ⟨all_isLog_map_log _, ?_⟩
      cases po.albPolicyOutcome with
      | error m => rfl
      | ok arn =>
        simp only
        rw [List.all_append, Bool.and_eq_true]
        refine ⟨all_isLog_map_log _, ?_⟩
        cases po.iamSaOk with
        | false => rfl
        | true => simp [all_isLog_map_log]

/-- C2: for every `eks-cli-stream` session of a client that stays
connected, the frames sent are zero or more `Log` frames followed by
exactly one terminal frame (`Complete` or `Error`); the terminal frame is
last and nothing follows it. -/
theorem session_frames_logs_then_one_terminal (msg : ClientMsg) :
    LogsThenOneTerminal (sessionFrames msg) := by
  cases msg with
  | malformed m =>
    exact logsThenOneTerminal_of_eq _ [] (.error ("Invalid message format: " ++ m))
      rfl rfl rfl
  | delete p o =>
    cases o with
    | spawnError m =>
      exact logsThenOneTerminal_of_eq _ []
        (.error ("Failed to spawn EKS delete process: " ++ m)) rfl rfl rfl
    | runs chunks code =>
      by_cases h0 : code = 0
      · refine logsThenOneTerminal_of_eq _ (chunks.map chunkFrame)
          (.complete ("Cluster \x27" ++ p.clusterName ++ "\x27 deleted successfully."))
          ?_ (all_isLog_chunkFrames chunks) rfl
        simp [sessionFrames, deleteSession, h0]
      · refine logsThenOneTerminal_of_eq _ (chunks.map chunkFrame)
          (.error ("Cluster deletion failed with code " ++ toString code ++ "."))
          ?_ (all_isLog_chunkFrames chunks) rfl
        simp [sessionFrames, deleteSession, h0]
  | create p o =>
    cases hpre : o.preflight with
    | threw m =>
      refine logsThenOneTerminal_of_eq _
        [.log "\n--- Running pre-flight permission check for IAM role creation ---\n"]
        (.error ("Failed during IAM pre-flight check: " ++ m ++
          ". This could be due to missing \x27iam:SimulatePrincipalPolicy\x27 or \x27sts:GetCallerIdentity\x27 permissions."))
        ?_ rfl rfl
      simp [sessionFrames, createSession, hpre]
    | results rs =>
      cases hd : (deniedOf rs).isEmpty with
      | false =>
        refine logsThenOneTerminal_of_eq _
          [.log "\n--- Running pre-flight permission check for IAM role creation ---\n"]
          (.error ("Pre-flight check failed. Missing permissions: " ++
            joinComma ((deniedOf rs).map EvalResult.evalActionName) ++
            ". Please grant these permissions to your IAM user and try again."))
          ?_ rfl rfl
        simp [sessionFrames, createSession, hpre, hd]
      | true =>
        have hd' : ((deniedOf rs).isEmpty = false) = False := by simp [hd]
        rcases hE : executeCommandModel o.check with ⟨cfs, co⟩
        have hcfs : cfs.all Frame.isLog = true := by
          have := all_isLog_executeCommand o.check
          rw [hE] at this
          exact this
        set name := normalizeClusterName p.clusterName with hname
        set head :=
          [Frame.log "\n--- Running pre-flight permission check for IAM role creation ---\n",
           Frame.log "IAM permission check successful. Proceeding with cluster creation.\n",
           Frame.log ("\nChecking for existing cluster \x27" ++ name ++
             "\x27 in region \x27" ++ p.region ++ "\x27...\n")] ++ cfs with hhead
        have hheadlog : head.all Frame.isLog = true := by
          rw [hhead, List.all_append, Bool.and_eq_true]
          exact ⟨rfl, hcfs⟩
        cases co with
        | ok out =>
          refine logsThenOneTerminal_of_eq _ head
            (.error ("Cluster \x27" ++ name ++ "\x27 already exists in region \x27" ++
              p.region ++ "\x27.")) ?_ hheadlog rfl
          simp [sessionFrames, createSession, hpre, hd', hE, hhead]
        | fail e =>
          by_cases hcond : e ≠ "" ∧ jsIncludes e "ResourceNotFoundException" = false
          · refine logsThenOneTerminal_of_eq _ head
              (.error ("Failed to check for existing cluster: " ++ e)) ?_ hheadlog rfl
            simp [sessionFrames, createSession, hpre, hd', hE, hcond, hhead]
          · set cfg := generateEksClusterConfig p with hcfg
            set proceed := head ++
              [Frame.log ("Cluster \x27" ++ name ++
                 "\x27 does not exist. Proceeding with creation.\n"),
               Frame.log ("\n--- Generated eksctl Configuration ---\n" ++ cfg ++
                 "\n------------------------------------\n")] with hproceed
            have hproceedlog : proceed.all Frame.isLog = true := by
              rw [hproceed, List.all_append, Bool.and_eq_true]
              exact ⟨hheadlog, rfl⟩
            cases hcr : o.creation with
            | spawnError m =>
              refine logsThenOneTerminal_of_eq _ proceed
                (.error ("Failed to spawn EKS process: " ++ m)) ?_ hproceedlog rfl
              simp [sessionFrames, createSession, hpre, hd', hE, hcond, hcr,
                hproceed, hhead, hcfg]
            | runs chunks code =>
              by_cases h0 : code = 0
              · refine logsThenOneTerminal_of_eq _
                  (proceed ++ chunks.map chunkFrame ++
                    postCreateFrames p.albIngressAccess o.post ++
                    [Frame.log "\n--- Waiting for 15 seconds for API server to stabilize before deploying monitoring stack... ---\n"])
                  (.complete ("Cluster \x27" ++ name ++
                    "\x27 and all selected add-ons created successfully.")) ?_ ?_ rfl
                · simp [sessionFrames, createSession, hpre, hd', hE, hcond, hcr, h0,
                    hproceed, hhead, hcfg]
                · rw [List.all_append, Bool.and_eq_true, List.all_append,
                    Bool.and_eq_true, List.all_append, Bool.and_eq_true]
                  exact ⟨⟨⟨hproceedlog, all_isLog_chunkFrames chunks⟩,
                    all_isLog_postCreate _ _⟩, rfl⟩
              · refine logsThenOneTerminal_of_eq _
                  (proceed ++ chunks.map chunkFrame)
                  (.error ("Cluster creation failed with code " ++ toString code ++ "."))
                  ?_ ?_ rfl
                · simp [sessionFrames, createSession, hpre, hd', hE, hcond, hcr, h0,
                    hproceed, hhead, hcfg]
                · rw [List.all_append, Bool.and_eq_true]
                  exact ⟨hproceedlog, all_isLog_chunkFrames chunks⟩

/-- `upToLast` misses exactly when the character is absent. -/
theorem upToLast_eq_none_of_not_mem (c : Char) :
    ∀ l : List Char, c ∉ l → upToLast c l = none := by
  intro l
  induction l with
  | nil => intro _; rfl
  | cons x xs ih =>
    intro h
    rw [List.mem_cons] at h
    push_neg at h
    rw [upToLast, ih h.2, if_neg (fun hx => h.1 hx.symm)]

/-- `upToLast` returns the span ending at the last occurrence. -/
theorem upToLast_append_last (c : Char) (post : List Char) (hpost : c ∉ post) :
    ∀ mid : List Char, upToLast c (mid ++ c :: post) = some (mid ++ [c]) := by
  intro mid
  induction mid with
  | nil =>
    rw [List.nil_append, upToLast, upToLast_eq_none_of_not_mem c post hpost, if_pos rfl]
    rfl
  | cons x xs ih =>
    rw [List.cons_append, upToLast, ih]
    rfl

/-- Bracket-free noise before the payload does not move the match. -/
theorem firstBracketMatch_skip (pre : List Char) (hpre : bracketFree pre = true) :
    ∀ rest : List Char, firstBracketMatch (pre ++ rest) = firstBracketMatch rest := by
  induction pre with
  | nil => intro rest; rfl
  | cons c cs ih =>
    intro rest
    rw [bracketFree, List.all_cons, Bool.and_eq_true] at hpre
    have hc := hpre.1
    rw [Bool.and_eq_true, Bool.and_eq_true, Bool.and_eq_true] at hc
    have hob : ¬ (c = '\x7b') := by
      intro h; subst h; simp at hc
    have hosb : ¬ (c = '[') := by
      intro h; subst h; simp at hc
    rw [List.cons_append, firstBracketMatch, if_neg hob, if_neg hosb]
    exact ih hpre.2 rest

/-- The leftmost-greedy match on a decomposed input: from the first opener
to the last matching closer, noise tolerated on both sides. -/
theorem firstBracketMatch_decomp (pre mid post : List Char)
    (hpre : bracketFree pre = true) (hpost : '\x7d' ∉ post) :
    firstBracketMatch (pre ++ '\x7b' :: (mid ++ '\x7d' :: post)) =
      some ('\x7b' :: (mid ++ ['\x7d'])) := by
  rw [firstBracketMatch_skip pre hpre, firstBracketMatch, if_pos rfl,
    upToLast_append_last '\x7d' post hpost mid]

/-- Members survive `dropWhile`. -/
theorem mem_of_mem_dropWhile_chars (p : Char → Bool) (a : Char) :
    ∀ l : List Char, a ∈ l.dropWhile p → a ∈ l := by
  intro l
  induction l with
  | nil => intro h; exact h
  | cons x xs ih =>
    intro h
    rw [List.dropWhile] at h
    split at h
    · exact List.mem_cons_of_mem _ (ih h)
    · exact h

/-- Characters of the trimmed string come from the original string. -/
theorem mem_jsTrim_toList (s : String) (a : Char) :
    a ∈ (jsTrim s).toList → a ∈ s.toList := by
  intro h
  have h2 : a ∈ ((s.toList.dropWhile Char.isWhitespace).reverse.dropWhile
      Char.isWhitespace).reverse := h
  rw [List.mem_reverse] at h2
  have h3 := mem_of_mem_dropWhile_chars Char.isWhitespace a _ h2
  rw [List.mem_reverse] at h3
  exact mem_of_mem_dropWhile_chars Char.isWhitespace a _ h3

/-- Trimming preserves bracket-freeness. -/
theorem bracketFree_jsTrim (s : String) (h : bracketFree s.toList = true) :
    bracketFree (jsTrim s).toList = true := by
  rw [bracketFree, List.all_eq_true] at h ⊢
  intro c hc
  exact h c (mem_jsTrim_toList s c hc)

/-- No brackets anywhere means no match. -/
theorem firstBracketMatch_none_of_bracketFree :
    ∀ cs : List Char, bracketFree cs = true → firstBracketMatch cs = none := by
  intro cs h
  have := firstBracketMatch_skip cs h []
  rw [List.append_nil] at this
  rw [this]
  rfl

/-- C8: the JSON-extraction helper parses the substring from the first
opener to the last matching closer, tolerating noise before and after; the
concrete input `"warning: cache miss\n{"a":1}\n"` yields the object
`{a: 1}`; and when no bracketed substring exists, or parsing fails, it
fails with an error naming the calling context. -/
theorem parseAndHandleJson_spec :
    (parseAndHandleJson "warning: cache miss\n\x7b\"a\":1\x7d\n" "eksctl get cluster output" =
      .ok (.obj [("a", .num 1)]))
    ∧ (∀ s ctx, bracketFree s.toList = true →
        parseAndHandleJson s ctx =
          .error ("No valid JSON structure found for " ++ ctx ++
            ". Raw output might be empty or malformed."))
    ∧ (∀ s ctx sub e, firstBracketMatch (jsTrim s).toList = some sub →
        jsonParse (String.mk sub) = .error e →
        parseAndHandleJson s ctx =
          .error ("Failed to parse " ++ ctx ++
            " as JSON. Raw output might be malformed or contain non-JSON data. Details: " ++ e))
    ∧ (∀ s ctx pre mid post v,
        (jsTrim s).toList = pre ++ '\x7b' :: (mid ++ '\x7d' :: post) →
        bracketFree pre = true → '\x7d' ∉ post →
        jsonParse (String.mk ('\x7b' :: (mid ++ ['\x7d']))) = .ok v →
        parseAndHandleJson s ctx = .ok v) := by
  refine ⟨rfl, ?_, ?_, ?_⟩
  · intro s ctx h
    have hnone := firstBracketMatch_none_of_bracketFree _ (bracketFree_jsTrim s h)
    rw [parseAndHandleJson]
    rw [hnone]
  · intro s ctx sub e hsub hparse
    have hstep : parseAndHandleJson s ctx =
        match jsonParse (String.mk sub) with
        | .ok v => Except.ok v
        | .error e =>
          Except.error ("Failed to parse " ++ ctx ++
            " as JSON. Raw output might be malformed or contain non-JSON data. Details: " ++ e) := by
      rw [parseAndHandleJson, hsub]
    rw [hstep, hparse]
  · intro s ctx pre mid post v hdecomp hpre hpost hparse
    have hmatch : firstBracketMatch (jsTrim s).toList =
        some ('\x7b' :: (mid ++ ['\x7d'])) := by
      rw [hdecomp]
      exact firstBracketMatch_decomp pre mid post hpre hpost
    have hstep : parseAndHandleJson s ctx =
        match jsonParse (String.mk ('\x7b' :: (mid ++ ['\x7d']))) with
        | .ok v => Except.ok v
        | .error e =>
          Except.error ("Failed to parse " ++ ctx ++
            " as JSON. Raw output might be malformed or contain non-JSON data. Details: " ++ e) := by
      rw [parseAndHandleJson, hmatch]
    rw [hstep, hparse]

/-- Witness for `parseAndHandleJson_spec`: an input with no bracket
characters fails with the context-naming error. -/
theorem parseAndHandleJson_spec_witness :
    parseAndHandleJson "error: no clusters" "aws sts get-caller-identity output" =
      .error ("No valid JSON structure found for " ++
        "aws sts get-caller-identity output" ++
        ". Raw output might be empty or malformed.") :=
  parseAndHandleJson_spec.2.1 "error: no clusters"
    "aws sts get-caller-identity output" (by decide)

set_option maxRecDepth 8000 in
/-- C10 counterexample: for the supplied name `"My Cluster"`, the session
name is the normalized `"my-cluster"`, but the generated configuration —
built from the raw payload — embeds `name: My Cluster`, not the normalized
name: the configuration does NOT use the normalized cluster name. -/
theorem create_config_uses_raw_name_cex :
    normalizeClusterName "My Cluster" = "my-cluster"
    ∧ jsIncludes (generateEksClusterConfig
        ⟨"My Cluster", "us-east-1", "1.29", "ng-1", "t3.medium", 2, 1, 3, 20, "gp3",
          false, "", false, false, false⟩) "name: My Cluster" = true
    ∧ jsIncludes (generateEksClusterConfig
        ⟨"My Cluster", "us-east-1", "1.29", "ng-1", "t3.medium", 2, 1, 3, 20, "gp3",
          false, "", false, false, false⟩) "name: my-cluster" = false := by
  exact ⟨rfl, rfl, rfl⟩

/-- C10 (amended): the create branch uses the normalized name (whitespace
runs collapsed to `-`, lowercased) for its frames and for the existence
check target, but the generated configuration fed to the creation
subprocess is rendered from the raw payload and embeds the supplied
`clusterName` unchanged; the delete branch uses the supplied `clusterName`
exactly as given. -/
theorem cluster_name_usage_amended (p : CreatePayload) (dp : DeletePayload)
    (o : CreateOracle) (so : SpawnOutcome) (rs : List EvalResult)
    (hpre : o.preflight = .results rs)
    (hallowed : (deniedOf rs).isEmpty = true) :
    (createSession p o).checkCommand =
      some ("eksctl get cluster --name=" ++ normalizeClusterName p.clusterName ++
        " --region=" ++ p.region ++ " --output json")
    ∧ (createSession p o).frames.get? 2 =
        some (.log ("\nChecking for existing cluster \x27" ++
          normalizeClusterName p.clusterName ++ "\x27 in region \x27" ++
          p.region ++ "\x27...\n"))
    ∧ ((createSession p o).creationSpawned = true →
        (createSession p o).creationStdin = some (generateEksClusterConfig p))
    ∧ (∃ rest, generateEksClusterConfig p =
        "\napiVersion: eksctl.io/v1alpha5\nkind: ClusterConfig\n\nmetadata:\n  name: " ++
          p.clusterName ++ rest)
    ∧ (deleteSession dp so).deleteArgs =
        some ["delete", "cluster", "--name=" ++ dp.clusterName,
          "--region=" ++ dp.region] := by
  have hd' : ((deniedOf rs).isEmpty = false) = False := by simp [hallowed]
  rcases hE : executeCommandModel o.check with ⟨cfs, co⟩
  have main : (createSession p o).checkCommand =
      some ("eksctl get cluster --name=" ++ normalizeClusterName p.clusterName ++
        " --region=" ++ p.region ++ " --output json")
      ∧ (createSession p o).frames.get? 2 =
        some (.log ("\nChecking for existing cluster \x27" ++
          normalizeClusterName p.clusterName ++ "\x27 in region \x27" ++
          p.region ++ "\x27...\n"))
      ∧ ((createSession p o).creationSpawned = true →
        (createSession p o).creationStdin = some (generateEksClusterConfig p)) := by
    cases co with
    | ok out =>
      refine ⟨?_, ?_, ?_⟩ <;>
        simp [createSession, hpre, hd', hE]
    | fail e =>
      by_cases hcond : e ≠ "" ∧ jsIncludes e "ResourceNotFoundException" = false
      · refine ⟨?_, ?_, ?_⟩ <;>
          simp [createSession, hpre, hd', hE, hcond]
      · cases hcr : o.creation with
        | spawnError m =>
          refine ⟨?_, ?_, ?_⟩ <;>
            simp [createSession, hpre, hd', hE, hcond, hcr]
        | runs chunks code =>
          by_cases h0 : code = 0 <;>
            · refine ⟨?_, ?_, ?_⟩ <;>
                simp [createSession, hpre, hd', hE, hcond, hcr, h0]
  refine ⟨main.1, main.2.1, main.2.2, ?_, ?_⟩
  · refine ⟨"\n  region: " ++ p.region ++ "\n  version: \"" ++ p.kubernetesVersion ++
      "\"\n\niam:\n  withOIDC: true" ++
      ("\nmanagedNodeGroups:\n  - name: " ++ p.nodeGroupName ++
        "\n    instanceType: " ++ p.instanceType ++
        "\n    desiredCapacity: " ++ toString p.desiredCapacity ++
        "\n    minSize: " ++ toString p.minNodes ++
        "\n    maxSize: " ++ toString p.maxNodes ++
        "\n    volumeSize: " ++ toString p.volumeSize ++
        "\n    volumeType: " ++ p.volumeType ++
        "\n    ssh:\n      allow: " ++ (if p.enableSsh then "true" else "false") ++ "\n") ++
      (if p.enableSsh ∧ p.sshKeyName ≠ "" then
        "\n      publicKeyName: " ++ p.sshKeyName ++ "\n"
       else "") ++ "\naddons:" ++
      (if p.enableEbsCsiAccess then
        "\n  - name: aws-ebs-csi-driver\n    wellKnownPolicies:\n      ebsCSIController: true\n"
       else "") ++
      (if p.enableEfsCsiAccess then
        "\n  - name: aws-efs-csi-driver\n    wellKnownPolicies:\n      efsCSIController: true\n"
       else "") ++ "\n  - name: vpc-cni\n", ?_⟩
    simp [generateEksClusterConfig, String.append_assoc]
  · cases so with
    | spawnError m => rfl
    | runs chunks code =>
      by_cases h0 : code = 0 <;> simp [deleteSession, h0]

/-- Witness for `cluster_name_usage_amended`: a create whose existence
check reports not-found proceeds, feeding the raw-name configuration to
the subprocess. -/
theorem cluster_name_usage_amended_witness :
    (createSession
      ⟨"My Cluster", "us-east-1", "1.29", "ng-1", "t3.medium", 2, 1, 3, 20, "gp3",
        false, "", false, false, false⟩
      ⟨.results [],
       .runs [.err "ResourceNotFoundException"] 1,
       .runs [] 0,
       ⟨[], true, [], .ok "arn", [], true, [], []⟩⟩).checkCommand =
      some ("eksctl get cluster --name=" ++ normalizeClusterName "My Cluster" ++
        " --region=" ++ "us-east-1" ++ " --output json") :=
  (cluster_name_usage_amended
    ⟨"My Cluster", "us-east-1", "1.29", "ng-1", "t3.medium", 2, 1, 3, 20, "gp3",
      false, "", false, false, false⟩
    ⟨"demo", "us-east-1"⟩
    ⟨.results [],
     .runs [.err "ResourceNotFoundException"] 1,
     .runs [] 0,
     ⟨[], true, [], .ok "arn", [], true, [], []⟩⟩
    (.runs [] 0) [] rfl rfl).1
